import Mathlib

/-!
Verification development for the OBB (oriented bounding box) core of the
repository: a shallow embedding of `src/Renderer/ThreeExtended/OBB.js`.

Modelling conventions:
* Machine floats are modelled by exact rationals (`ℚ`).
* The three.js vector / quaternion / matrix operations that the file uses are
  pure arithmetic and are embedded directly (`applyQuaternion`, quaternion
  multiplication, `Matrix4.compose`, `applyMatrix4`, `Plane.projectPoint`,
  componentwise `min`/`max`, `translateX/Y/Z`).
* Operations that need square roots or trigonometry (`Vector3.normalize`,
  `Quaternion.setFromUnitVectors`, `Quaternion.setFromAxisAngle`,
  `Object3D.lookAt`, `Vector3.distanceTo`, and the geographic → Cartesian
  conversion coming from `Core/Geographic/Coordinates`) are external
  collaborators of the core; they are injected as parameters (`GeoPrim`),
  as the specification prescribes for GeometryPrimitives and the
  geographic conversion.  The distance is injected through a square-root
  function applied to the exactly-computed squared length.
* Mutation is modelled by explicit state passing on `OBBState`.
-/

/-- 3-component vector with exact rational coordinates (three.js `Vector3`). -/
structure Vec3 where
  x : ℚ
  y : ℚ
  z : ℚ
  deriving DecidableEq

/-- Quaternion with components (x, y, z, w) (three.js `Quaternion`). -/
structure Quat where
  qx : ℚ
  qy : ℚ
  qz : ℚ
  qw : ℚ
  deriving DecidableEq

/-- Axis-aligned box with `min`/`max` corners (three.js `Box3`). -/
structure Box3 where
  bmin : Vec3
  bmax : Vec3
  deriving DecidableEq

def Vec3.zero : Vec3 := ⟨0, 0, 0⟩

def Vec3.add (a b : Vec3) : Vec3 := ⟨a.x + b.x, a.y + b.y, a.z + b.z⟩

def Vec3.sub (a b : Vec3) : Vec3 := ⟨a.x - b.x, a.y - b.y, a.z - b.z⟩

def Vec3.neg (a : Vec3) : Vec3 := ⟨-a.x, -a.y, -a.z⟩

def Vec3.smul (k : ℚ) (a : Vec3) : Vec3 := ⟨k * a.x, k * a.y, k * a.z⟩

def Vec3.dot (a b : Vec3) : ℚ := a.x * b.x + a.y * b.y + a.z * b.z

def Vec3.cross (a b : Vec3) : Vec3 :=
  ⟨a.y * b.z - a.z * b.y, a.z * b.x - a.x * b.z, a.x * b.y - a.y * b.x⟩

def Vec3.lengthSq (a : Vec3) : ℚ := Vec3.dot a a

/-- Componentwise maximum (three.js `Vector3.max`). -/
def Vec3.compMax (a b : Vec3) : Vec3 := ⟨max a.x b.x, max a.y b.y, max a.z b.z⟩

/-- Componentwise minimum (three.js `Vector3.min`). -/
def Vec3.compMin (a b : Vec3) : Vec3 := ⟨min a.x b.x, min a.y b.y, min a.z b.z⟩

/-- The identity quaternion, the default orientation of a fresh `Object3D`. -/
def Quat.one : Quat := ⟨0, 0, 0, 1⟩

/-- Quaternion product `a * b` (three.js `multiplyQuaternions(a, b)`;
`q.multiply(p)` is `q := Quat.mul q p`). -/
def Quat.mul (a b : Quat) : Quat :=
  ⟨a.qx * b.qw + a.qw * b.qx + a.qy * b.qz - a.qz * b.qy,
   a.qy * b.qw + a.qw * b.qy + a.qz * b.qx - a.qx * b.qz,
   a.qz * b.qw + a.qw * b.qz + a.qx * b.qy - a.qy * b.qx,
   a.qw * b.qw - a.qx * b.qx - a.qy * b.qy - a.qz * b.qz⟩

/-- three.js `Vector3.applyQuaternion`: `t = 2 q×v`, `v + w t + q×t`. -/
def Vec3.applyQuaternion (v : Vec3) (q : Quat) : Vec3 :=
  let qv : Vec3 := ⟨q.qx, q.qy, q.qz⟩
  let t := Vec3.smul 2 (Vec3.cross qv v)
  Vec3.add v (Vec3.add (Vec3.smul q.qw t) (Vec3.cross qv t))

/-- 4×4 matrix, elements in three.js column-major order (`elements[0..15]`). -/
structure Mat4 where
  e0 : ℚ
  e1 : ℚ
  e2 : ℚ
  e3 : ℚ
  e4 : ℚ
  e5 : ℚ
  e6 : ℚ
  e7 : ℚ
  e8 : ℚ
  e9 : ℚ
  e10 : ℚ
  e11 : ℚ
  e12 : ℚ
  e13 : ℚ
  e14 : ℚ
  e15 : ℚ
  deriving DecidableEq

/-- three.js `Matrix4.compose(position, quaternion, scale)`. -/
def Mat4.compose (p : Vec3) (q : Quat) (s : Vec3) : Mat4 :=
  let x2 := q.qx + q.qx
  let y2 := q.qy + q.qy
  let z2 := q.qz + q.qz
  let xx := q.qx * x2
  let xy := q.qx * y2
  let xz := q.qx * z2
  let yy := q.qy * y2
  let yz := q.qy * z2
  let zz := q.qz * z2
  let wx := q.qw * x2
  let wy := q.qw * y2
  let wz := q.qw * z2
  { e0 := (1 - (yy + zz)) * s.x, e1 := (xy + wz) * s.x, e2 := (xz - wy) * s.x, e3 := 0,
    e4 := (xy - wz) * s.y, e5 := (1 - (xx + zz)) * s.y, e6 := (yz + wx) * s.y, e7 := 0,
    e8 := (xz + wy) * s.z, e9 := (yz - wx) * s.z, e10 := (1 - (xx + yy)) * s.z, e11 := 0,
    e12 := p.x, e13 := p.y, e14 := p.z, e15 := 1 }

/-- three.js `Vector3.applyMatrix4` (with the perspective divide by `w`). -/
def Vec3.applyMatrix4 (v : Vec3) (m : Mat4) : Vec3 :=
  let w := 1 / (m.e3 * v.x + m.e7 * v.y + m.e11 * v.z + m.e15)
  ⟨(m.e0 * v.x + m.e4 * v.y + m.e8 * v.z + m.e12) * w,
   (m.e1 * v.x + m.e5 * v.y + m.e9 * v.z + m.e13) * w,
   (m.e2 * v.x + m.e6 * v.y + m.e10 * v.z + m.e14) * w⟩

/-- three.js `Plane.projectPoint` for the plane through the origin with the
given normal (`new Plane(normal)` has `constant = 0`):
`target = normal * (−(normal·p)) + p`. -/
def projectPointOrigin (normal p : Vec3) : Vec3 :=
  Vec3.add (Vec3.smul (-(Vec3.dot normal p)) normal) p

/-- three.js `Object3D.translateOnAxis`: move `p` by `d` along the local
`axis` of an object whose orientation is `q`. -/
def translateOnAxis (q : Quat) (axis : Vec3) (d : ℚ) (p : Vec3) : Vec3 :=
  Vec3.add p (Vec3.smul d (Vec3.applyQuaternion axis q))

/-- State of an `OBB` object (`OBB.js`): the current box `box3D`, the
immutable natural box `natBox`, the `Object3D` transform fields
(`position`, `quaternion`; `scale` stays at the `Object3D` default `(1,1,1)`
and is never mutated), the anchor `oPosition`, the recorded height range
`z = {min, max}`, the cached world corners `pointsWorld`, and the
`centerWorld` attached by the builder. -/
structure OBBState where
  box3D : Box3
  natBox : Box3
  position : Vec3
  quaternion : Quat
  oPosition : Vec3
  zMin : ℚ
  zMax : ℚ
  pointsWorld : List Vec3
  centerWorld : Option Vec3
  deriving DecidableEq

namespace OBB

/-- `OBB.prototype._points`: the 8 corners of `box3D` in the fixed order
(index 0 = (max.x, max.y, max.z), …, index 6 = (min.x, min.y, min.z)). -/
def points (b : Box3) : List Vec3 :=
  [⟨b.bmax.x, b.bmax.y, b.bmax.z⟩,
   ⟨b.bmin.x, b.bmax.y, b.bmax.z⟩,
   ⟨b.bmin.x, b.bmin.y, b.bmax.z⟩,
   ⟨b.bmax.x, b.bmin.y, b.bmax.z⟩,
   ⟨b.bmax.x, b.bmax.y, b.bmin.z⟩,
   ⟨b.bmin.x, b.bmax.y, b.bmin.z⟩,
   ⟨b.bmin.x, b.bmin.y, b.bmin.z⟩,
   ⟨b.bmax.x, b.bmin.y, b.bmin.z⟩]

/-- `OBB.prototype.update`: recompute `matrixWorld` (the OBB has no parent,
so it is `Matrix4.compose(position, quaternion, scale)` with the default
scale `(1,1,1)`) and transform the 8 corners of `box3D` by it
(`_cPointsWorld(_points())`). -/
def update (s : OBBState) : OBBState :=
  let m := Mat4.compose s.position s.quaternion ⟨1, 1, 1⟩
  { s with pointsWorld := (points s.box3D).map (fun p => Vec3.applyMatrix4 p m) }

/-- The `OBB(min, max, lookAt, translate)` constructor.  `lookAtQ` is the
injected `Object3D.lookAt` primitive (the object is at the origin when it is
invoked, so the resulting quaternion depends only on the target). -/
def create (lookAtQ : Vec3 → Quat) (mn mx : Vec3) (lookAtT translate : Option Vec3) :
    OBBState :=
  let box : Box3 := ⟨mn, mx⟩
  let q : Quat :=
    match lookAtT with
    | some t => lookAtQ t
    | none => Quat.one
  let p : Vec3 :=
    match translate with
    | some tr =>
        translateOnAxis q ⟨0, 0, 1⟩ tr.z
          (translateOnAxis q ⟨0, 1, 0⟩ tr.y
            (translateOnAxis q ⟨1, 0, 0⟩ tr.x Vec3.zero))
    | none => Vec3.zero
  let s0 : OBBState :=
    { box3D := box, natBox := box, position := p, quaternion := q,
      oPosition := Vec3.zero, zMin := 0, zMax := 0,
      pointsWorld := [], centerWorld := none }
  let s1 := update s0
  { s1 with oPosition := s1.position }

/-- `OBB.prototype.addHeight(minz, maxz)`: set the z-range of `box3D` from
`natBox` plus the deltas, re-center it symmetrically, reset `position` to
`oPosition`, translate by `translaZ` along the local z axis, refresh the
corner cache, and return the diagnostic `Vector2`. -/
def addHeight (s : OBBState) (minz maxz : ℚ) : OBBState × (ℚ × ℚ) :=
  let depth := |s.natBox.bmin.z - s.natBox.bmax.z|
  let lowz := s.natBox.bmin.z + minz
  let highz := s.natBox.bmax.z + maxz
  let nHalfSize := |lowz - highz| / 2
  let translaZ := lowz + nHalfSize
  let box : Box3 :=
    ⟨⟨s.box3D.bmin.x, s.box3D.bmin.y, -nHalfSize⟩,
     ⟨s.box3D.bmax.x, s.box3D.bmax.y, nHalfSize⟩⟩
  let pos := translateOnAxis s.quaternion ⟨0, 0, 1⟩ translaZ s.oPosition
  let s1 := update { s with box3D := box, position := pos }
  (s1, (nHalfSize - depth / 2, translaZ))

/-- `OBB.prototype.updateZ(min, max)`: record `z = {min, max}` and delegate
to `addHeight`. -/
def updateZ (s : OBBState) (mn mx : ℚ) : OBBState × (ℚ × ℚ) :=
  addHeight { s with zMin := mn, zMax := mx } mn mx

/-- `OBB.prototype.clone`: build a fresh OBB from `natBox.min/max` (no
`lookAt`, no `translate`, so the injected lookAt primitive is irrelevant),
copy `position` and `quaternion` onto it, and replace the source's
`oPosition` by a fresh equal copy (`this.oPosition = this.oPosition.clone()`
assigns to the source object, not to the clone).  Returns
(clone, source after the call). -/
def clone (s : OBBState) : OBBState × OBBState :=
  let c0 := create (fun _ => Quat.one) s.natBox.bmin s.natBox.bmax none none
  let c := { c0 with position := s.position, quaternion := s.quaternion }
  (c, s)

end OBB

/-- Injected external primitives (the spec's GeometryPrimitives collaborator
and the geographic → Cartesian conversion).

Modelled from the spec: `Core/Geographic/Coordinates` (the
`C.EPSG_4326_Radians` coordinates and their `as('EPSG:4978').xyz()`
conversion) is not part of the sources at hand; per the specification it is
"a pure function mapping a (longitude, latitude) pair in a fixed geographic
CRS to a 3D Cartesian point in a fixed Earth-centered frame", injected as
`toCart`.  The three.js primitives that need square roots or trigonometry
(`normalize`, `setFromUnitVectors`, `setFromAxisAngle`, `Object3D.lookAt`)
and the square root used by `distanceTo` are injected likewise. -/
structure GeoPrim where
  toCart : ℚ → ℚ → Vec3
  normalizeV : Vec3 → Vec3
  fromUnitVectors : Vec3 → Vec3 → Quat
  axisAngleZ : ℚ → Quat
  lookAtQ : Vec3 → Quat
  sqrtQ : ℚ → ℚ

/-- Modelled from the spec: a geographic extent exposing its CRS string and
west/east/south/north bounds in radians, with `center()` the midpoint and
`dimensions()` returning (east − west, north − south). -/
structure GeoExtent where
  crs : String
  west : ℚ
  east : ℚ
  south : ℚ
  north : ℚ
  deriving DecidableEq

def GeoExtent.dimX (e : GeoExtent) : ℚ := e.east - e.west

def GeoExtent.dimY (e : GeoExtent) : ℚ := e.north - e.south

def GeoExtent.centerLon (e : GeoExtent) : ℚ := e.west + e.dimX / 2

def GeoExtent.centerLat (e : GeoExtent) : ℚ := e.south + e.dimY / 2

namespace OBB

/-- The 9 cardinal (longitude, latitude) samples pushed by `extentToOBB`:
`phiStart = west`, `phiLength = dimensions.x`, `thetaStart = south`,
`thetaLength = dimensions.y`, then the 8 boundary samples and finally the
extent's center. -/
def cardinalsOf (e : GeoExtent) : List (ℚ × ℚ) :=
  let phiStart := e.west
  let phiLength := e.dimX
  let thetaStart := e.south
  let thetaLength := e.dimY
  [(phiStart, thetaStart),
   (phiStart + e.dimX * (1/2), thetaStart),
   (phiStart + phiLength, thetaStart),
   (phiStart + phiLength, thetaStart + e.dimY * (1/2)),
   (phiStart + phiLength, thetaStart + thetaLength),
   (phiStart + e.dimX * (1/2), thetaStart + thetaLength),
   (phiStart, thetaStart + thetaLength),
   (phiStart, thetaStart + e.dimY * (1/2)),
   (e.centerLon, e.centerLat)]

/-- Accumulator of the `extentToOBB` sample loop:
(`cardin3DPlane` so far, `maxV`, `minV`, `halfMaxHeight`). -/
def BuildAcc : Type := List Vec3 × Vec3 × Vec3 × ℚ

/-- One iteration of the `extentToOBB` loop: convert the cardinal to
Cartesian, project it onto the tangent plane through the origin, measure the
distance from the projection to (point − centerWorld) to update
`halfMaxHeight`, rotate the projection by `qRotY` (the in-place
`applyQuaternion` on the stored entry) and fold it into `maxV`/`minV`. -/
def buildStep (g : GeoPrim) (centerWorld normal : Vec3) (qRotY : Quat)
    (acc : BuildAcc) (c : ℚ × ℚ) : BuildAcc :=
  let cardinal3D := g.toCart c.1 c.2
  let proj := projectPointOrigin normal cardinal3D
  let d := g.sqrtQ (Vec3.lengthSq (Vec3.sub proj (Vec3.sub cardinal3D centerWorld)))
  let h := max acc.2.2.2 (d * (1/2))
  let r := Vec3.applyQuaternion proj qRotY
  (acc.1 ++ [r], Vec3.compMax acc.2.1 r, Vec3.compMin acc.2.2.1 r, h)

/-- Intermediate values of `extentToOBB` just after the sample loop. -/
structure BuildData where
  centerWorld : Vec3
  normal : Vec3
  pts : List Vec3
  maxV : Vec3
  minV : Vec3
  halfMaxHeight : ℚ

/-- The deterministic part of `extentToOBB` up to the end of the sample
loop: `centerWorld`, `normal = normalize(centerWorld)`,
`qRotY = setFromAxisAngle((0,0,1), −center.longitude) * setFromUnitVectors(normal, (0,0,1))`,
and the loop fold starting from `maxV = (−1000,−1000,−1000)`,
`minV = (1000,1000,1000)`, `halfMaxHeight = 0`. -/
def buildData (g : GeoPrim) (e : GeoExtent) : BuildData :=
  let centerWorld := g.toCart e.centerLon e.centerLat
  let normal := g.normalizeV centerWorld
  let planeZ := g.fromUnitVectors normal ⟨0, 0, 1⟩
  let qRotY := Quat.mul (g.axisAngleZ (-e.centerLon)) planeZ
  let res := (cardinalsOf e).foldl (buildStep g centerWorld normal qRotY)
    ([], ⟨-1000, -1000, -1000⟩, ⟨1000, 1000, 1000⟩, 0)
  { centerWorld := centerWorld, normal := normal, pts := res.1,
    maxV := res.2.1, minV := res.2.2.1, halfMaxHeight := res.2.2.2 }

/-- `halfLength = |maxV.y − minV.y| * 0.5`. -/
def halfLengthOf (g : GeoPrim) (e : GeoExtent) : ℚ :=
  |(buildData g e).maxV.y - (buildData g e).minV.y| * (1/2)

/-- `halfWidth = |maxV.x − minV.x| * 0.5`. -/
def halfWidthOf (g : GeoPrim) (e : GeoExtent) : ℚ :=
  |(buildData g e).maxV.x - (buildData g e).minV.x| * (1/2)

/-- `delta = halfWidth − |cardin3DPlane[5].x|`. -/
def deltaOf (g : GeoPrim) (e : GeoExtent) : ℚ :=
  halfWidthOf g e - |((buildData g e).pts.getD 5 Vec3.zero).x|

/-- The `translate` vector `(0, delta, −halfMaxHeight)` handed to the OBB
constructor. -/
def translateOf (g : GeoPrim) (e : GeoExtent) : Vec3 :=
  ⟨0, deltaOf g e, -(buildData g e).halfMaxHeight⟩

/-- The OBB value produced by `extentToOBB` once the CRS guard has passed:
`new OBB(min, max, normal, translate)` with
`max = (halfLength, halfWidth, halfMaxHeight)`, `min = −max`, followed by
`addHeight(minHeight, maxHeight)` when one of them is non-zero, and the
`centerWorld` attachment. -/
def buildOBBValue (g : GeoPrim) (e : GeoExtent) (minHeight maxHeight : ℚ) : OBBState :=
  let mx : Vec3 := ⟨halfLengthOf g e, halfWidthOf g e, (buildData g e).halfMaxHeight⟩
  let mn : Vec3 := ⟨-halfLengthOf g e, -halfWidthOf g e, -(buildData g e).halfMaxHeight⟩
  let obb := create g.lookAtQ mn mx (some (buildData g e).normal) (some (translateOf g e))
  let obb2 :=
    if minHeight ≠ 0 ∨ maxHeight ≠ 0 then (addHeight obb minHeight maxHeight).1 else obb
  { obb2 with centerWorld := some (buildData g e).centerWorld }

/-- `OBB.extentToOBB(extent, minHeight = 0, maxHeight = 0)`: throws when the
extent's CRS is not `EPSG:4326`; otherwise builds the OBB from the sampled
extent (`buildOBBValue`). -/
def extentToOBB (g : GeoPrim) (e : GeoExtent) (minHeight maxHeight : ℚ) :
    Except String OBBState :=
  if e.crs ≠ "EPSG:4326" then
    Except.error "The extent crs is not a Geographic Coordinates (EPSG:4326)"
  else
    Except.ok (buildOBBValue g e minHeight maxHeight)

end OBB

/-- For the identity scale, applying the composed matrix of
`Matrix4.compose(position, quaternion, (1,1,1))` to a vector agrees with
translating by `position` after rotating by the quaternion sandwich formula
(`Vector3.applyQuaternion`); the identity holds for every quaternion as a
polynomial identity. -/
theorem applyMatrix4_compose (p : Vec3) (q : Quat) (v : Vec3) :
    Vec3.applyMatrix4 v (Mat4.compose p q ⟨1, 1, 1⟩) =
      Vec3.add p (Vec3.applyQuaternion v q) := by
  simp only [Vec3.applyMatrix4, Mat4.compose, Vec3.applyQuaternion, Vec3.add,
    Vec3.smul, Vec3.cross, Vec3.dot, Vec3.mk.injEq]
  norm_num
  refine ⟨by ring, by ring, by ring⟩

/-- The corner cache is consistent with the current fields: it has exactly
8 entries and each is `position + rotateByQuaternion(quaternion, corner)`
for the corresponding `_points` corner of `box3D`. -/
def cornersOK (s : OBBState) : Prop :=
  s.pointsWorld.length = 8 ∧
  s.pointsWorld =
    (OBB.points s.box3D).map (fun c => Vec3.add s.position (Vec3.applyQuaternion c s.quaternion))

/-- `update` always leaves the corner cache consistent. -/
theorem cornersOK_update (s : OBBState) : cornersOK (OBB.update s) := by
  constructor
  · simp [OBB.update, OBB.points]
  · simp [OBB.update, OBB.points, applyMatrix4_compose]

/-- C2: extrusion is non-cumulative and idempotent: for any OBB state,
`extrude(a,b)` followed by `extrude(c,d)` leaves `localBox` (`box3D`),
`position` and `worldCorners` (`pointsWorld`) equal to a single
`extrude(c,d)` on the original state, and in the special case
`(c,d) = (a,b)` the second call leaves them equal to the state after the
first call. -/
theorem extrude_non_cumulative_idempotent (s : OBBState) (a b c d : ℚ) :
    ((OBB.updateZ (OBB.updateZ s a b).1 c d).1.box3D = (OBB.updateZ s c d).1.box3D ∧
     (OBB.updateZ (OBB.updateZ s a b).1 c d).1.position = (OBB.updateZ s c d).1.position ∧
     (OBB.updateZ (OBB.updateZ s a b).1 c d).1.pointsWorld = (OBB.updateZ s c d).1.pointsWorld) ∧
    ((OBB.updateZ (OBB.updateZ s a b).1 a b).1.box3D = (OBB.updateZ s a b).1.box3D ∧
     (OBB.updateZ (OBB.updateZ s a b).1 a b).1.position = (OBB.updateZ s a b).1.position ∧
     (OBB.updateZ (OBB.updateZ s a b).1 a b).1.pointsWorld = (OBB.updateZ s a b).1.pointsWorld) := by
  exact ⟨⟨rfl, rfl, rfl⟩, ⟨rfl, rfl, rfl⟩⟩

/-- A concrete OBB built with an inverted z-range (`min.z = 1`,
`max.z = −1`): its natural box satisfies `natBox.min.z = −natBox.max.z`
(the symmetry equation of claim C9) while `natBox.max.z < 0`. -/
def invertedZBox : OBBState :=
  OBB.create (fun _ => Quat.one) ⟨-1, -1, 1⟩ ⟨1, 1, -1⟩ none none

/-- C9 counterexample: for the state `invertedZBox`, whose natural box
satisfies `natBox.min.z = −natBox.max.z`, and deltas `(0, 2)` satisfying
`natBox.min.z + 0 ≤ natBox.max.z + 2`, the pair returned by `extrude`
(`updateZ`) is `(−1, 1)`, not `((2 − 0)/2, (0 + 2)/2) = (1, 1)`: the first
component depends on the natural thickness when `natBox.max.z < 0`. -/
theorem addHeight_return_counterexample :
    invertedZBox.natBox.bmin.z = -invertedZBox.natBox.bmax.z ∧
    invertedZBox.natBox.bmin.z + 0 ≤ invertedZBox.natBox.bmax.z + 2 ∧
    (OBB.updateZ invertedZBox 0 2).2 = (-1, 1) ∧
    (OBB.updateZ invertedZBox 0 2).2 ≠ ((2 - 0) / 2, (0 + 2) / 2) := by
  refine ⟨by with_unfolding_all decide, by with_unfolding_all decide,
    by with_unfolding_all decide, by with_unfolding_all decide⟩

/-- C9 (amended): if the natural box is symmetric about z with a
non-negative half-thickness — `natBox.min.z = −natBox.max.z` and
`0 ≤ natBox.max.z`, exactly what the builder guarantees — and
`natBox.min.z + minDelta ≤ natBox.max.z + maxDelta`, then `extrude`
(`updateZ`) returns exactly
`((maxDelta − minDelta)/2, (minDelta + maxDelta)/2)`, independent of the
box's natural thickness. -/
theorem addHeight_return_value (s : OBBState) (minDelta maxDelta : ℚ)
    (hsym : s.natBox.bmin.z = -s.natBox.bmax.z)
    (hnn : 0 ≤ s.natBox.bmax.z)
    (hle : s.natBox.bmin.z + minDelta ≤ s.natBox.bmax.z + maxDelta) :
    (OBB.updateZ s minDelta maxDelta).2 =
      ((maxDelta - minDelta) / 2, (minDelta + maxDelta) / 2) := by
  have h1 : s.natBox.bmin.z - s.natBox.bmax.z ≤ 0 := by linarith
  have h2 : s.natBox.bmin.z + minDelta - (s.natBox.bmax.z + maxDelta) ≤ 0 := by linarith
  simp only [OBB.updateZ, OBB.addHeight, abs_of_nonpos h1, abs_of_nonpos h2,
    Prod.mk.injEq]
  constructor
  · rw [hsym]; ring
  · rw [hsym]; ring

/-- C9 witness: on a state with natural z-range `[−2, 2]` and deltas
`(1, 3)`, the hypotheses hold and `extrude` returns `(1, 2)`. -/
theorem addHeight_return_value_witness :
    (OBB.updateZ (OBB.create (fun _ => Quat.one) ⟨-1, -1, -2⟩ ⟨1, 1, 2⟩ none none) 1 3).2 =
      ((3 - 1) / 2, (1 + 3) / 2) :=
  addHeight_return_value (OBB.create (fun _ => Quat.one) ⟨-1, -1, -2⟩ ⟨1, 1, 2⟩ none none)
    1 3 (by with_unfolding_all decide) (by with_unfolding_all decide)
    (by with_unfolding_all decide)

/-- C10: on a state whose natural box is symmetric about z as the builder
guarantees (`natBox.min.z = −natBox.max.z` with `0 ≤ natBox.max.z`),
`extrude(0, 0)` restores `localBox.min.z` and `localBox.max.z` to the
natural values and resets `position` to `originPosition` (`oPosition`). -/
theorem extrude_zero_restores (s : OBBState)
    (hsym : s.natBox.bmin.z = -s.natBox.bmax.z)
    (hnn : 0 ≤ s.natBox.bmax.z) :
    (OBB.updateZ s 0 0).1.box3D.bmin.z = s.natBox.bmin.z ∧
    (OBB.updateZ s 0 0).1.box3D.bmax.z = s.natBox.bmax.z ∧
    (OBB.updateZ s 0 0).1.position = s.oPosition := by
  have h2 : s.natBox.bmin.z + 0 - (s.natBox.bmax.z + 0) ≤ 0 := by linarith
  have key : |s.natBox.bmin.z + 0 - (s.natBox.bmax.z + 0)| / 2 = s.natBox.bmax.z := by
    rw [abs_of_nonpos h2, hsym]; ring
  have t0 : s.natBox.bmin.z + 0 + s.natBox.bmax.z = 0 := by rw [hsym]; ring
  refine ⟨?_, ?_, ?_⟩
  · simp only [OBB.updateZ, OBB.addHeight, OBB.update, key]
    rw [hsym]
  · simp only [OBB.updateZ, OBB.addHeight, OBB.update, key]
  · simp only [OBB.updateZ, OBB.addHeight, OBB.update, key, t0, translateOnAxis]
    simp [Vec3.add, Vec3.smul]

/-- C10 witness: on a state with natural z-range `[−2, 2]`, `extrude(0,0)`
restores the natural z-range and the origin position. -/
theorem extrude_zero_restores_witness :
    (OBB.updateZ (OBB.create (fun _ => Quat.one) ⟨-1, -1, -2⟩ ⟨1, 1, 2⟩ none none) 0 0).1.box3D.bmin.z =
      (OBB.create (fun _ => Quat.one) ⟨-1, -1, -2⟩ ⟨1, 1, 2⟩ none none).natBox.bmin.z ∧
    (OBB.updateZ (OBB.create (fun _ => Quat.one) ⟨-1, -1, -2⟩ ⟨1, 1, 2⟩ none none) 0 0).1.box3D.bmax.z =
      (OBB.create (fun _ => Quat.one) ⟨-1, -1, -2⟩ ⟨1, 1, 2⟩ none none).natBox.bmax.z ∧
    (OBB.updateZ (OBB.create (fun _ => Quat.one) ⟨-1, -1, -2⟩ ⟨1, 1, 2⟩ none none) 0 0).1.position =
      (OBB.create (fun _ => Quat.one) ⟨-1, -1, -2⟩ ⟨1, 1, 2⟩ none none).oPosition :=
  extrude_zero_restores (OBB.create (fun _ => Quat.one) ⟨-1, -1, -2⟩ ⟨1, 1, 2⟩ none none)
    (by with_unfolding_all decide) (by with_unfolding_all decide)

/-- Inversion for the builder: a successful `extentToOBB` returns exactly
`buildOBBValue`. -/
theorem extentToOBB_ok_elim {g : GeoPrim} {e : GeoExtent} {mh Mh : ℚ} {obb : OBBState}
    (h : OBB.extentToOBB g e mh Mh = Except.ok obb) :
    obb = OBB.buildOBBValue g e mh Mh := by
  unfold OBB.extentToOBB at h
  by_cases hc : e.crs ≠ "EPSG:4326"
  · simp [hc] at h
  · simp [hc] at h
    exact h.symm

/-- Along the sample loop, the running `halfMaxHeight` never decreases. -/
theorem buildStep_hmh_le (g : GeoPrim) (cw n : Vec3) (q : Quat) (l : List (ℚ × ℚ))
    (acc : OBB.BuildAcc) :
    acc.2.2.2 ≤ (l.foldl (OBB.buildStep g cw n q) acc).2.2.2 := by
  induction l generalizing acc with
  | nil => simp
  | cons c t ih =>
      exact le_trans (le_max_left _ _) (ih (OBB.buildStep g cw n q acc c))

/-- `halfMaxHeight` starts at 0 and only grows, so it is non-negative. -/
theorem halfMaxHeight_nonneg (g : GeoPrim) (e : GeoExtent) :
    0 ≤ (OBB.buildData g e).halfMaxHeight := by
  have h := buildStep_hmh_le g (g.toCart e.centerLon e.centerLat)
      (g.normalizeV (g.toCart e.centerLon e.centerLat))
      (Quat.mul (g.axisAngleZ (-e.centerLon))
        (g.fromUnitVectors (g.normalizeV (g.toCart e.centerLon e.centerLat)) ⟨0, 0, 1⟩))
      (OBB.cardinalsOf e) ([], ⟨-1000, -1000, -1000⟩, ⟨1000, 1000, 1000⟩, 0)
  simpa [OBB.buildData] using h

/-- `halfLength = |maxV.y − minV.y| * 0.5` is non-negative. -/
theorem halfLength_nonneg (g : GeoPrim) (e : GeoExtent) : 0 ≤ OBB.halfLengthOf g e := by
  unfold OBB.halfLengthOf
  positivity

/-- `halfWidth = |maxV.x − minV.x| * 0.5` is non-negative. -/
theorem halfWidth_nonneg (g : GeoPrim) (e : GeoExtent) : 0 ≤ OBB.halfWidthOf g e := by
  unfold OBB.halfWidthOf
  positivity

/-- The natural box of a built OBB, whether or not initial heights were
applied: `max = (halfLength, halfWidth, halfMaxHeight)` and `min = −max`. -/
theorem natBox_buildOBBValue (g : GeoPrim) (e : GeoExtent) (mh Mh : ℚ) :
    (OBB.buildOBBValue g e mh Mh).natBox =
      Box3.mk ⟨-OBB.halfLengthOf g e, -OBB.halfWidthOf g e, -(OBB.buildData g e).halfMaxHeight⟩
        ⟨OBB.halfLengthOf g e, OBB.halfWidthOf g e, (OBB.buildData g e).halfMaxHeight⟩ := by
  by_cases hz : mh ≠ 0 ∨ Mh ≠ 0 <;>
    simp [OBB.buildOBBValue, hz, OBB.create, OBB.addHeight, OBB.update]

/-- C5: every OBB produced by the builder has a natural box symmetric about
the local origin: `naturalBox.min = −naturalBox.max` componentwise, with
`naturalBox.max = (halfLength, halfWidth, halfMaxHeight)` all
non-negative. -/
theorem built_natBox_symmetric (g : GeoPrim) (e : GeoExtent) (mh Mh : ℚ) (obb : OBBState)
    (h : OBB.extentToOBB g e mh Mh = Except.ok obb) :
    obb.natBox.bmin = Vec3.neg obb.natBox.bmax ∧
    obb.natBox.bmax =
      ⟨OBB.halfLengthOf g e, OBB.halfWidthOf g e, (OBB.buildData g e).halfMaxHeight⟩ ∧
    0 ≤ obb.natBox.bmax.x ∧ 0 ≤ obb.natBox.bmax.y ∧ 0 ≤ obb.natBox.bmax.z := by
  rw [extentToOBB_ok_elim h, natBox_buildOBBValue]
  refine ⟨by simp [Vec3.neg], rfl, ?_, ?_, ?_⟩
  · exact halfLength_nonneg g e
  · exact halfWidth_nonneg g e
  · exact halfMaxHeight_nonneg g e

/-- A concrete injection of the external primitives used by witnesses: the
geographic → Cartesian conversion maps (lon, lat) to (lon, lat, 1), the
normalization is the identity, the quaternion constructions return the
identity quaternion, and the injected square root is the zero function. -/
def gTest : GeoPrim :=
  { toCart := fun lon lat => ⟨lon, lat, 1⟩, normalizeV := fun v => v,
    fromUnitVectors := fun _ _ => Quat.one, axisAngleZ := fun _ => Quat.one,
    lookAtQ := fun _ => Quat.one, sqrtQ := fun _ => 0 }

/-- The spec's example extent: west = 0, south = 0, east = 0.01 rad,
north = 0.01 rad, in the geographic CRS. -/
def extEx : GeoExtent := ⟨"EPSG:4326", 0, 1/100, 0, 1/100⟩

/-- An extent in a projected (non-geographic) CRS. -/
def extBad : GeoExtent := ⟨"EPSG:3857", 0, 1/100, 0, 1/100⟩

/-- C5 witness: the builder applied to the example extent (with the
concrete injected primitives) yields a symmetric non-negative natural
box. -/
theorem built_natBox_symmetric_witness :
    (OBB.buildOBBValue gTest extEx 0 100).natBox.bmin =
      Vec3.neg (OBB.buildOBBValue gTest extEx 0 100).natBox.bmax ∧
    (OBB.buildOBBValue gTest extEx 0 100).natBox.bmax =
      ⟨OBB.halfLengthOf gTest extEx, OBB.halfWidthOf gTest extEx,
        (OBB.buildData gTest extEx).halfMaxHeight⟩ ∧
    0 ≤ (OBB.buildOBBValue gTest extEx 0 100).natBox.bmax.x ∧
    0 ≤ (OBB.buildOBBValue gTest extEx 0 100).natBox.bmax.y ∧
    0 ≤ (OBB.buildOBBValue gTest extEx 0 100).natBox.bmax.z :=
  built_natBox_symmetric gTest extEx 0 100 (OBB.buildOBBValue gTest extEx 0 100)
    (by with_unfolding_all rfl)

/-- C7: `extentToOBB` fails, with the invalid-CRS error message, exactly
when the extent's CRS is not the geographic `EPSG:4326`; on a geographic
extent it never raises and returns the built OBB. -/
theorem extentToOBB_crs_guard (g : GeoPrim) (e : GeoExtent) (mh Mh : ℚ) :
    (e.crs ≠ "EPSG:4326" →
      OBB.extentToOBB g e mh Mh =
        Except.error "The extent crs is not a Geographic Coordinates (EPSG:4326)") ∧
    (e.crs = "EPSG:4326" →
      OBB.extentToOBB g e mh Mh = Except.ok (OBB.buildOBBValue g e mh Mh)) := by
  constructor
  · intro hc
    simp [OBB.extentToOBB, hc]
  · intro hc
    simp [OBB.extentToOBB, hc]

/-- C7 witness: the guard at work on one projected and one geographic
extent. -/
theorem extentToOBB_crs_guard_witness :
    OBB.extentToOBB gTest extBad 0 0 =
      Except.error "The extent crs is not a Geographic Coordinates (EPSG:4326)" ∧
    OBB.extentToOBB gTest extEx 0 0 = Except.ok (OBB.buildOBBValue gTest extEx 0 0) :=
  ⟨(extentToOBB_crs_guard gTest extBad 0 0).1 (by decide),
   (extentToOBB_crs_guard gTest extEx 0 0).2 (by decide)⟩

/-- Changing only `oPosition` does not touch the corner cache or the fields
it is measured against. -/
theorem cornersOK_oPos (s : OBBState) (v : Vec3) (h : cornersOK s) :
    cornersOK { s with oPosition := v } := h

/-- Changing only `centerWorld` does not touch the corner cache or the
fields it is measured against. -/
theorem cornersOK_centerWorld (s : OBBState) (v : Option Vec3) (h : cornersOK s) :
    cornersOK { s with centerWorld := v } := h

/-- The constructor ends in `update`, so its corner cache is consistent. -/
theorem cornersOK_create (laq : Vec3 → Quat) (mn mx : Vec3) (la tr : Option Vec3) :
    cornersOK (OBB.create laq mn mx la tr) := by
  unfold OBB.create
  exact cornersOK_oPos _ _ (cornersOK_update _)

/-- `addHeight` ends in `update`, so its corner cache is consistent. -/
theorem cornersOK_addHeight (s : OBBState) (a b : ℚ) :
    cornersOK (OBB.addHeight s a b).1 := by
  unfold OBB.addHeight
  exact cornersOK_update _

/-- C3: after construction (`new OBB(...)`), after every extrusion
(`updateZ`), after every corner refresh (`update`), and on every OBB
returned by the builder, `worldCorners` has exactly 8 entries and each
entry equals `position + rotateByQuaternion(orientation, localCorner[i])`
with the fixed `_points` corner indexing — the cache is never stale. -/
theorem corner_cache_consistent :
    (∀ laq mn mx la tr, cornersOK (OBB.create laq mn mx la tr)) ∧
    (∀ s a b, cornersOK (OBB.updateZ s a b).1) ∧
    (∀ s, cornersOK (OBB.update s)) ∧
    (∀ g e mh Mh obb, OBB.extentToOBB g e mh Mh = Except.ok obb → cornersOK obb) := by
  refine ⟨cornersOK_create, fun s a b => cornersOK_addHeight _ a b, cornersOK_update, ?_⟩
  intro g e mh Mh obb h
  rw [extentToOBB_ok_elim h]
  unfold OBB.buildOBBValue
  apply cornersOK_centerWorld
  by_cases hz : mh ≠ 0 ∨ Mh ≠ 0
  · rw [if_pos hz]
    exact cornersOK_addHeight _ mh Mh
  · rw [if_neg hz]
    exact cornersOK_create _ _ _ _ _

/-- C3 witness: the corner cache of the OBB built from the example extent
(with heights 0 and 100) is consistent. -/
theorem corner_cache_consistent_witness :
    cornersOK (OBB.buildOBBValue gTest extEx 0 100) :=
  corner_cache_consistent.2.2.2 gTest extEx 0 100 (OBB.buildOBBValue gTest extEx 0 100)
    (by with_unfolding_all rfl)

/-- `min ≤ max` on each axis of an axis-aligned box. -/
abbrev boxOrdered (b : Box3) : Prop :=
  b.bmin.x ≤ b.bmax.x ∧ b.bmin.y ≤ b.bmax.y ∧ b.bmin.z ≤ b.bmax.z

/-- The C8 invariant: both `box3D` (`localBox`) and `natBox` are ordered. -/
abbrev boxInv (s : OBBState) : Prop := boxOrdered s.box3D ∧ boxOrdered s.natBox

/-- Every OBB the builder returns satisfies the box-ordering invariant. -/
theorem boxInv_buildOBBValue (g : GeoPrim) (e : GeoExtent) (mh Mh : ℚ) :
    boxInv (OBB.buildOBBValue g e mh Mh) := by
  have hl := halfLength_nonneg g e
  have hw := halfWidth_nonneg g e
  have hh := halfMaxHeight_nonneg g e
  have hnat : boxOrdered (OBB.buildOBBValue g e mh Mh).natBox := by
    rw [natBox_buildOBBValue]
    exact ⟨neg_le_self hl, neg_le_self hw, neg_le_self hh⟩
  refine ⟨?_, hnat⟩
  simp only [OBB.buildOBBValue]
  by_cases hz : mh ≠ 0 ∨ Mh ≠ 0
  · rw [if_pos hz]
    refine ⟨neg_le_self hl, neg_le_self hw, ?_⟩
    show -(_ / 2) ≤ _ / 2
    exact neg_le_self (by positivity)
  · rw [if_neg hz]
    exact ⟨neg_le_self hl, neg_le_self hw, neg_le_self hh⟩

/-- C8: `localBox.min ≤ localBox.max` componentwise at all times: the
builder establishes it (together with the same property of the natural
box), and `extrude` (`updateZ`, with arbitrary — also negative or
inverted — deltas), `clone` (for both the clone and the source) and the
corner refresh (`update`) preserve it. -/
theorem box_min_le_max_invariant :
    (∀ g e mh Mh obb, OBB.extentToOBB g e mh Mh = Except.ok obb → boxInv obb) ∧
    (∀ s a b, boxInv s → boxInv (OBB.updateZ s a b).1) ∧
    (∀ s, boxInv s → boxInv (OBB.clone s).1 ∧ boxInv (OBB.clone s).2) ∧
    (∀ s, boxInv s → boxInv (OBB.update s)) := by
  refine ⟨?_, ?_, ?_, fun s h => h⟩
  · intro g e mh Mh obb h
    rw [extentToOBB_ok_elim h]
    exact boxInv_buildOBBValue g e mh Mh
  · intro s a b h
    obtain ⟨⟨hx, hy, _⟩, hn⟩ := h
    refine ⟨⟨hx, hy, ?_⟩, hn⟩
    show -(_ / 2) ≤ _ / 2
    exact neg_le_self (by positivity)
  · intro s h
    exact ⟨⟨h.2, h.2⟩, h⟩

/-- C8 witness: the invariant holds on the OBB built from the example
extent, and it is preserved by an extrusion with inverted deltas, by
`clone`, and by `update` on that OBB. -/
theorem box_min_le_max_invariant_witness :
    boxInv (OBB.buildOBBValue gTest extEx 0 100) ∧
    boxInv (OBB.updateZ (OBB.buildOBBValue gTest extEx 0 100) 7 (-7)).1 ∧
    (boxInv (OBB.clone (OBB.buildOBBValue gTest extEx 0 100)).1 ∧
     boxInv (OBB.clone (OBB.buildOBBValue gTest extEx 0 100)).2) ∧
    boxInv (OBB.update (OBB.buildOBBValue gTest extEx 0 100)) := by
  have h0 : boxInv (OBB.buildOBBValue gTest extEx 0 100) :=
    box_min_le_max_invariant.1 gTest extEx 0 100 (OBB.buildOBBValue gTest extEx 0 100)
      (by with_unfolding_all rfl)
  exact ⟨h0, box_min_le_max_invariant.2.1 _ 7 (-7) h0,
    box_min_le_max_invariant.2.2.1 _ h0, box_min_le_max_invariant.2.2.2 _ h0⟩

/-- A concrete source OBB whose `oPosition` is non-zero: constructed with
no `lookAt` target (identity orientation) and the translation (0, 0, 5),
so `position = oPosition = (0, 0, 5)`. -/
def cloneSrc : OBBState :=
  OBB.create (fun _ => Quat.one) ⟨-1, -1, -1⟩ ⟨1, 1, 1⟩ none (some ⟨0, 0, 5⟩)

/-- C4: evaluation of `clone` at the failing input `cloneSrc`.  The clone
is a fresh value (box from `natBox`, `position`/`quaternion` copied, the
source is left unchanged), but its `oPosition` is the constructor default
`(0,0,0)` rather than a copy of the source's `(0,0,5)`:
`this.oPosition = this.oPosition.clone()` reassigns the source's own
field instead of the clone's. -/
theorem clone_originPosition_bug :
    cloneSrc.oPosition = (⟨0, 0, 5⟩ : Vec3) ∧
    (OBB.clone cloneSrc).2 = cloneSrc ∧
    (OBB.clone cloneSrc).1.position = cloneSrc.position ∧
    (OBB.clone cloneSrc).1.quaternion = cloneSrc.quaternion ∧
    (OBB.clone cloneSrc).1.box3D = Box3.mk cloneSrc.natBox.bmin cloneSrc.natBox.bmax ∧
    (OBB.clone cloneSrc).1.oPosition = Vec3.zero ∧
    (OBB.clone cloneSrc).1.oPosition ≠ cloneSrc.oPosition := by
  with_unfolding_all decide

/-- The cardinal ordering asserted by the spec sentence of C6: clockwise
from the north-west corner (north-west, north-mid, north-east, east-mid,
south-east, south-mid, south-west, west-mid), center last. -/
def specCardinalsClockwiseFromNW (e : GeoExtent) : List (ℚ × ℚ) :=
  [(e.west, e.north), ((e.west + e.east) / 2, e.north), (e.east, e.north),
   (e.east, (e.south + e.north) / 2), (e.east, e.south),
   ((e.west + e.east) / 2, e.south), (e.west, e.south),
   (e.west, (e.south + e.north) / 2),
   ((e.west + e.east) / 2, (e.south + e.north) / 2)]

/-- A concrete geographic extent with west = 0, east = 2, south = 0,
north = 2. -/
def ext22 : GeoExtent := ⟨"EPSG:4326", 0, 2, 0, 2⟩

/-- C6 counterexample: on `ext22` the sample list does not start at the
north-west corner (it starts at the south-west corner `(0, 0)`, while the
north-west corner is `(0, 2)`), and the index-5 sample is the north
edge-midpoint `(1, 2)`, not the south edge-midpoint `(1, 0)`. -/
theorem cardinals_not_clockwise_from_NW :
    OBB.cardinalsOf ext22 ≠ specCardinalsClockwiseFromNW ext22 ∧
    (OBB.cardinalsOf ext22).getD 0 (0, 0) = ((0 : ℚ), (0 : ℚ)) ∧
    ((0 : ℚ), (0 : ℚ)) ≠ (ext22.west, ext22.north) ∧
    (OBB.cardinalsOf ext22).getD 5 (0, 0) = ((1 : ℚ), (2 : ℚ)) ∧
    ((1 : ℚ), (2 : ℚ)) ≠ ((ext22.west + ext22.east) / 2, ext22.south) := by
  with_unfolding_all decide

/-- C6 (amended): the 9 samples are ordered counterclockwise (with north
up) starting from the south-west corner — south-west, south-mid,
south-east, east-mid, north-east, north-mid, north-west, west-mid — with
the center last; the asymmetry correction is
`delta = halfWidth − |x of the projected, rotated sample of index 5|` (the
north edge-midpoint), handed to the constructor as the local-frame
translation `(0, delta, −halfMaxHeight)`, so the built OBB's anchor
position is `delta` along the rotated local y axis plus `−halfMaxHeight`
along the rotated local z axis. -/
theorem cardinals_order_and_translate (g : GeoPrim) (e : GeoExtent) (mh Mh : ℚ)
    (obb : OBBState) (h : OBB.extentToOBB g e mh Mh = Except.ok obb) :
    OBB.cardinalsOf e =
      [(e.west, e.south), ((e.west + e.east) / 2, e.south), (e.east, e.south),
       (e.east, (e.south + e.north) / 2), (e.east, e.north),
       ((e.west + e.east) / 2, e.north), (e.west, e.north),
       (e.west, (e.south + e.north) / 2),
       ((e.west + e.east) / 2, (e.south + e.north) / 2)] ∧
    OBB.translateOf g e =
      ⟨0, OBB.halfWidthOf g e - |((OBB.buildData g e).pts.getD 5 Vec3.zero).x|,
        -(OBB.buildData g e).halfMaxHeight⟩ ∧
    obb.oPosition =
      Vec3.add
        (Vec3.smul (OBB.deltaOf g e)
          (Vec3.applyQuaternion ⟨0, 1, 0⟩ (g.lookAtQ (OBB.buildData g e).normal)))
        (Vec3.smul (-(OBB.buildData g e).halfMaxHeight)
          (Vec3.applyQuaternion ⟨0, 0, 1⟩ (g.lookAtQ (OBB.buildData g e).normal))) := by
  refine ⟨?_, rfl, ?_⟩
  · simp only [OBB.cardinalsOf, GeoExtent.dimX, GeoExtent.dimY, GeoExtent.centerLon,
      GeoExtent.centerLat, List.cons.injEq, Prod.mk.injEq, and_true]
    and_intros <;> ring_nf
  · rw [extentToOBB_ok_elim h]
    have hop : ∀ mh2 Mh2 : ℚ, (OBB.buildOBBValue g e mh2 Mh2).oPosition =
        (OBB.create g.lookAtQ
          ⟨-OBB.halfLengthOf g e, -OBB.halfWidthOf g e, -(OBB.buildData g e).halfMaxHeight⟩
          ⟨OBB.halfLengthOf g e, OBB.halfWidthOf g e, (OBB.buildData g e).halfMaxHeight⟩
          (some (OBB.buildData g e).normal) (some (OBB.translateOf g e))).oPosition := by
      intro mh2 Mh2
      simp only [OBB.buildOBBValue]
      by_cases hz : mh2 ≠ 0 ∨ Mh2 ≠ 0
      · rw [if_pos hz]
        rfl
      · rw [if_neg hz]
    rw [hop mh Mh]
    simp only [OBB.create, OBB.update, translateOnAxis, OBB.translateOf, OBB.deltaOf,
      Vec3.zero, Vec3.add, Vec3.smul, Vec3.mk.injEq]
    and_intros <;> ring_nf

/-- The recorded height range of a builder result, seen through the
`Except`. -/
def builtHeightRange (r : Except String OBBState) : Option (ℚ × ℚ) :=
  r.toOption.map (fun o => (o.zMin, o.zMax))

/-- C1 counterexample: on the spec's example extent (west = 0, south = 0,
east = 0.01 rad, north = 0.01 rad) with `minHeight = 0`,
`maxHeight = 100`, the OBB returned by `extentToOBB` has
`heightRange = {0, 0}`, not `{0, 100}`: the builder invokes `addHeight`
directly, which never records `z`. -/
theorem builder_heightRange_counterexample :
    builtHeightRange (OBB.extentToOBB gTest extEx 0 100) = some (0, 0) ∧
    builtHeightRange (OBB.extentToOBB gTest extEx 0 100) ≠ some (0, 100) := by
  constructor
  · with_unfolding_all rfl
  · with_unfolding_all decide

/-- C1 (amended): `extrude` (`updateZ`) records
`heightRange = {minDelta, maxDelta}`, but the OBB returned by the builder
always has `heightRange = {0, 0}` whatever `minHeight`/`maxHeight` are,
because `extentToOBB` calls `addHeight` directly without recording `z`. -/
theorem heightRange_semantics :
    (∀ (s : OBBState) (mn mx : ℚ),
      (OBB.updateZ s mn mx).1.zMin = mn ∧ (OBB.updateZ s mn mx).1.zMax = mx) ∧
    (∀ g e mh Mh obb, OBB.extentToOBB g e mh Mh = Except.ok obb →
      obb.zMin = 0 ∧ obb.zMax = 0) := by
  constructor
  · intro s mn mx
    exact ⟨rfl, rfl⟩
  · intro g e mh Mh obb h
    rw [extentToOBB_ok_elim h]
    simp only [OBB.buildOBBValue]
    by_cases hz : mh ≠ 0 ∨ Mh ≠ 0
    · rw [if_pos hz]
      exact ⟨rfl, rfl⟩
    · rw [if_neg hz]
      exact ⟨rfl, rfl⟩

/-- C1 witness: `updateZ` with deltas (3, 7) records `{3, 7}`, and the
builder output on the example extent records `{0, 0}`. -/
theorem heightRange_semantics_witness :
    ((OBB.updateZ cloneSrc 3 7).1.zMin = 3 ∧ (OBB.updateZ cloneSrc 3 7).1.zMax = 7) ∧
    ((OBB.buildOBBValue gTest extEx 0 100).zMin = 0 ∧
     (OBB.buildOBBValue gTest extEx 0 100).zMax = 0) :=
  ⟨heightRange_semantics.1 cloneSrc 3 7,
   heightRange_semantics.2 gTest extEx 0 100 (OBB.buildOBBValue gTest extEx 0 100)
     (by with_unfolding_all rfl)⟩

/-- C6 witness: the amended ordering/translation statement instantiated on
the example extent and the concrete injected primitives. -/
theorem cardinals_order_and_translate_witness :
    OBB.cardinalsOf extEx =
      [(extEx.west, extEx.south), ((extEx.west + extEx.east) / 2, extEx.south),
       (extEx.east, extEx.south), (extEx.east, (extEx.south + extEx.north) / 2),
       (extEx.east, extEx.north), ((extEx.west + extEx.east) / 2, extEx.north),
       (extEx.west, extEx.north), (extEx.west, (extEx.south + extEx.north) / 2),
       ((extEx.west + extEx.east) / 2, (extEx.south + extEx.north) / 2)] ∧
    OBB.translateOf gTest extEx =
      ⟨0, OBB.halfWidthOf gTest extEx - |((OBB.buildData gTest extEx).pts.getD 5 Vec3.zero).x|,
        -(OBB.buildData gTest extEx).halfMaxHeight⟩ ∧
    (OBB.buildOBBValue gTest extEx 0 0).oPosition =
      Vec3.add
        (Vec3.smul (OBB.deltaOf gTest extEx)
          (Vec3.applyQuaternion ⟨0, 1, 0⟩ (gTest.lookAtQ (OBB.buildData gTest extEx).normal)))
        (Vec3.smul (-(OBB.buildData gTest extEx).halfMaxHeight)
          (Vec3.applyQuaternion ⟨0, 0, 1⟩ (gTest.lookAtQ (OBB.buildData gTest extEx).normal))) :=
  cardinals_order_and_translate gTest extEx 0 0 (OBB.buildOBBValue gTest extEx 0 0)
    (by with_unfolding_all rfl)
